import Mathlib

/-!
Verification development for the reusable future box
(src/core/reusable_future_box.rs).

The Rust type `ReusableBoxFuture<T>` owns one heap allocation holding a
type-erased future together with the layout (size, alignment) of that
allocation. Replacement (`set`, `try_set`) reuses the allocation when the
new future has the same layout, reallocating (`set`) or rejecting
(`try_set`) otherwise. The same-layout path (`set_same_layout`) drops the
old occupant while catching a possible unwind, writes the new future into
the same address, updates the vtable pointer, and only then re-raises the
captured unwind.

The embedding below models:
  * `Layout` as a (size, align) pair, mirroring `std::alloc::Layout`;
  * a future value (`Task`) by its identity, its concrete type tag (the
    vtable the fat pointer would carry), whether the source type is `Send`,
    its layout, whether its destructor unwinds (and with which payload),
    and a poll state machine (`state` counts completed polls, `pollFn`
    gives the result of the next poll, with the context forwarded);
  * the container by the allocation address, the vtable tag carried by
    `self.boxed`, the occupant bytes, and the stored `self.layout`;
  * the allocator by a fresh-address counter (a new allocation always gets
    an address distinct from every live one);
  * resource behaviour by an event trace (alloc / free / install /
    dropOccupant) emitted by every operation, with a small-step run
    semantics over operation sequences for the temporal claims.

The mismatched-layout arm of `set` is the statement
`*self = Self::new(future);`. Rust evaluates the right-hand side first
(allocating the new box), then drops the old value of `*self` (running the
old occupant destructor and freeing the old allocation), then moves the
new value in. If the old occupant destructor unwinds during that drop, the
assignment never writes: the fields of `self` keep their old values, the
temporary produced by `Self::new` is dropped during unwinding, and the
unwind propagates to the caller of `set`. The model reproduces exactly
this order of effects.
-/

namespace ReusableFutureBox

/-- Models `std::alloc::Layout`: a (size, alignment) pair, compared for
equality exactly as `layout == self.layout` does in the source. -/
structure Layout where
  size : Nat
  align : Nat
deriving DecidableEq

/-- Models `std::task::Poll<T>`: a poll either reports pending or
completes with a value. -/
inductive Poll (T : Type) where
  | pending
  | ready (value : T)
deriving DecidableEq

/-- Models a concrete future value `F: Future<Output = T> + 'static`.
`id` identifies the value, `tyId` its concrete type (the vtable a fat
pointer to it carries), `send` records whether the type is `Send`,
`layout` is `Layout::for_value` of the value, `dropPanic` is `some p`
when the destructor unwinds with payload `p`, and `pollFn n cx` is the
outcome of the poll after `n` earlier polls, given context `cx`. -/
structure Task (T : Type) (Ctx : Type) where
  id : Nat
  tyId : Nat
  send : Bool
  layout : Layout
  dropPanic : Option Nat
  state : Nat
  pollFn : Nat → Ctx → Poll T

/-- Resource events emitted by the container operations: allocation and
deallocation of a heap block, placement of a future into the allocation,
and a run of an occupant destructor. -/
inductive Event where
  | alloc (addr : Nat)
  | free (addr : Nat)
  | install (id : Nat)
  | dropOccupant (id : Nat)
deriving DecidableEq

/-- The global allocator, abstracted to a fresh-address counter: every
address ever handed out is below `next`, so a fresh block never aliases a
live one. -/
structure AllocState where
  next : Nat
deriving DecidableEq

/-- Models `ReusableBoxFuture<T>`: `addr` and `meta` are the address and
vtable halves of the fat pointer `boxed: NonNull<dyn Future<Output = T>>`,
`occupant` is the future stored behind it, and `layout` is the stored
layout field. -/
structure ReusableBoxFuture (T : Type) (Ctx : Type) where
  addr : Nat
  meta : Nat
  occupant : Task T Ctx
  layout : Layout

/-- Result of `ReusableBoxFuture::new`: the container, the allocator after
the fresh allocation, and the emitted events. -/
structure NewResult (T : Type) (Ctx : Type) where
  box : ReusableBoxFuture T Ctx
  alloc : AllocState
  events : List Event

/-- Result of the private `set_same_layout`: the container after the
in-place overwrite, the captured unwind payload of the old occupant
destructor (re-raised by `resume_unwind` after the state update), and the
emitted events. -/
structure SameLayoutResult (T : Type) (Ctx : Type) where
  box : ReusableBoxFuture T Ctx
  panicked : Option Nat
  events : List Event

/-- Result of `set`: container, allocator, unwind payload propagated to
the caller (if any), and emitted events. -/
structure SetResult (T : Type) (Ctx : Type) where
  box : ReusableBoxFuture T Ctx
  alloc : AllocState
  panicked : Option Nat
  events : List Event

/-- Result of `try_set`: container, unwind payload propagated to the
caller (if any), the rejected future handed back on layout mismatch
(`Err(future)` in the source, `none` meaning `Ok(())`), and events. -/
structure TrySetResult (T : Type) (Ctx : Type) where
  box : ReusableBoxFuture T Ctx
  panicked : Option Nat
  rejected : Option (Task T Ctx)
  events : List Event

/-- `ReusableBoxFuture::new(future)`: computes `Layout::for_value`, moves
the future into a fresh box, and records layout, pointer address and
vtable. The fresh block gets address `a.next`. -/
def ReusableBoxFuture.new (a : AllocState) (f : Task T Ctx) : NewResult T Ctx :=
  { box := { addr := a.next, meta := f.tyId, occupant := f, layout := f.layout },
    alloc := { next := a.next + 1 },
    events := [Event.alloc a.next, Event.install f.id] }

/-- `set_same_layout(future)`: runs the old occupant destructor under
`catch_unwind` (capturing its unwind payload), writes the new future into
the same address with `ptr::write`, updates `self.boxed` so the fat
pointer carries the vtable of the new concrete type, and returns the
captured payload for the final `resume_unwind`. The stored layout field
and the address are untouched. -/
def ReusableBoxFuture.set_same_layout (b : ReusableBoxFuture T Ctx) (f : Task T Ctx) :
    SameLayoutResult T Ctx :=
  { box := { b with occupant := f, meta := f.tyId },
    panicked := b.occupant.dropPanic,
    events := [Event.dropOccupant b.occupant.id, Event.install f.id] }

/-- `set(future)`: if `Layout::for_value(&future)` equals `self.layout`,
delegate to `set_same_layout`; otherwise execute
`*self = Self::new(future)`, whose effects in order are: allocate and
fill the new box, drop the old occupant, free the old allocation, and
move the new container value into `self`. When the old occupant
destructor unwinds during that drop, the move never happens: the fields
of `self` are unchanged, the temporary new container is dropped during
unwinding (destroying the new future and freeing the new block), and the
unwind propagates. -/
def ReusableBoxFuture.set (a : AllocState) (b : ReusableBoxFuture T Ctx) (f : Task T Ctx) :
    SetResult T Ctx :=
  if f.layout = b.layout then
    { box := (ReusableBoxFuture.set_same_layout b f).box,
      alloc := a,
      panicked := (ReusableBoxFuture.set_same_layout b f).panicked,
      events := (ReusableBoxFuture.set_same_layout b f).events }
  else
    match b.occupant.dropPanic with
    | none =>
        { box := (ReusableBoxFuture.new a f).box,
          alloc := (ReusableBoxFuture.new a f).alloc,
          panicked := none,
          events := (ReusableBoxFuture.new a f).events ++
            [Event.dropOccupant b.occupant.id, Event.free b.addr] }
    | some p =>
        { box := b,
          alloc := (ReusableBoxFuture.new a f).alloc,
          panicked := some p,
          events := (ReusableBoxFuture.new a f).events ++
            [Event.dropOccupant b.occupant.id, Event.free b.addr,
             Event.dropOccupant f.id, Event.free (ReusableBoxFuture.new a f).box.addr] }

/-- `try_set(future)`: same layout check as `set`; on a match it performs
`set_same_layout` and returns `Ok(())`, on a mismatch it performs no
mutation at all and returns `Err(future)`. It never allocates. -/
def ReusableBoxFuture.try_set (b : ReusableBoxFuture T Ctx) (f : Task T Ctx) :
    TrySetResult T Ctx :=
  if f.layout = b.layout then
    { box := (ReusableBoxFuture.set_same_layout b f).box,
      panicked := (ReusableBoxFuture.set_same_layout b f).panicked,
      rejected := none,
      events := (ReusableBoxFuture.set_same_layout b f).events }
  else
    { box := b, panicked := none, rejected := some f, events := [] }

/-- Polling a future: the outcome is `pollFn` at the current state with
the forwarded context, and the internal state advances by one step. -/
def Task.poll (f : Task T Ctx) (cx : Ctx) : Poll T × Task T Ctx :=
  (f.pollFn f.state cx, { f with state := f.state + 1 })

/-- `get_pin`: a pinned mutable reference to the occupant (the occupant
itself in the model; the address it lives at is `b.addr`). -/
def ReusableBoxFuture.get_pin (b : ReusableBoxFuture T Ctx) : Task T Ctx :=
  b.occupant

/-- The `poll` method: `self.get_pin().poll(cx)`, with the occupant
mutated in place. -/
def ReusableBoxFuture.poll (b : ReusableBoxFuture T Ctx) (cx : Ctx) :
    Poll T × ReusableBoxFuture T Ctx :=
  ((ReusableBoxFuture.get_pin b).poll cx |>.1,
   { b with occupant := ((ReusableBoxFuture.get_pin b).poll cx).2 })

/-- The `Future` implementation for the container:
`Pin::into_inner(self).get_pin().poll(cx)`. -/
def ReusableBoxFuture.futurePoll (b : ReusableBoxFuture T Ctx) (cx : Ctx) :
    Poll T × ReusableBoxFuture T Ctx :=
  ((ReusableBoxFuture.get_pin b).poll cx |>.1,
   { b with occupant := ((ReusableBoxFuture.get_pin b).poll cx).2 })

/-- The `Drop` implementation: `drop(Box::from_raw(self.boxed.as_ptr()))`
runs the occupant destructor and frees the allocation. -/
def ReusableBoxFuture.drop (b : ReusableBoxFuture T Ctx) : List Event :=
  [Event.dropOccupant b.occupant.id, Event.free b.addr]

/-- `unsafe impl<T> Send for ReusableBoxFuture<T>`: the container is
declared transferable across threads unconditionally, with no requirement
on the occupant. -/
def ReusableBoxFuture.isSend (_ : ReusableBoxFuture T Ctx) : Bool :=
  true

/-- Outcomes of a sequence of polls of a bare future. -/
def Task.pollSeq : Task T Ctx → List Ctx → List (Poll T)
  | _, [] => []
  | f, cx :: rest => (f.poll cx).1 :: (f.poll cx).2.pollSeq rest

/-- Outcomes of a sequence of polls through the container. -/
def ReusableBoxFuture.pollSeq : ReusableBoxFuture T Ctx → List Ctx → List (Poll T)
  | _, [] => []
  | b, cx :: rest =>
      (ReusableBoxFuture.poll b cx).1 :: (ReusableBoxFuture.poll b cx).2.pollSeq rest

/-- One caller-visible operation on a live container. A re-raised unwind
from an occupant destructor is assumed caught by the caller, who then
continues with the next operation. -/
inductive Op (T : Type) (Ctx : Type) where
  | setOp (f : Task T Ctx)
  | trySetOp (f : Task T Ctx)
  | pollOp (cx : Ctx)

/-- The allocator plus the live container, threaded through a run. -/
structure RunState (T : Type) (Ctx : Type) where
  alloc : AllocState
  box : ReusableBoxFuture T Ctx

/-- One step of the run semantics: perform the operation and emit its
events. -/
def step (s : RunState T Ctx) : Op T Ctx → RunState T Ctx × List Event
  | .setOp f =>
      ({ alloc := (ReusableBoxFuture.set s.alloc s.box f).alloc,
         box := (ReusableBoxFuture.set s.alloc s.box f).box },
       (ReusableBoxFuture.set s.alloc s.box f).events)
  | .trySetOp f =>
      ({ s with box := (ReusableBoxFuture.try_set s.box f).box },
       (ReusableBoxFuture.try_set s.box f).events)
  | .pollOp cx =>
      ({ s with box := (ReusableBoxFuture.poll s.box cx).2 }, [])

/-- Run a list of operations, accumulating the events in order. -/
def runOps : RunState T Ctx → List (Op T Ctx) → RunState T Ctx × List Event
  | s, [] => (s, [])
  | s, op :: rest =>
      ((runOps (step s op).1 rest).1,
       (step s op).2 ++ (runOps (step s op).1 rest).2)

/-- A step is benign when it is not a mismatched-layout `set` on an
occupant whose destructor unwinds (the one combination whose unwind
escapes uncaught in the middle of `*self = Self::new(future)`). -/
def goodStep (s : RunState T Ctx) : Op T Ctx → Bool
  | .setOp f => decide (f.layout = s.box.layout) || s.box.occupant.dropPanic.isNone
  | .trySetOp _ => true
  | .pollOp _ => true

/-- Every step of the run is benign. -/
def goodOps : RunState T Ctx → List (Op T Ctx) → Bool
  | _, [] => true
  | s, op :: rest => goodStep s op && goodOps (step s op).1 rest

/-- The state right after `ReusableBoxFuture::new` on a fresh allocator. -/
def initState (f0 : Task T Ctx) : RunState T Ctx :=
  { alloc := (ReusableBoxFuture.new { next := 0 } f0).alloc,
    box := (ReusableBoxFuture.new { next := 0 } f0).box }

/-- Final run state and full event trace of constructing the container
and running the operations, while the container is still alive. -/
def runTrace (f0 : Task T Ctx) (ops : List (Op T Ctx)) : RunState T Ctx × List Event :=
  ((runOps (initState f0) ops).1,
   (ReusableBoxFuture.new { next := 0 } f0).events ++ (runOps (initState f0) ops).2)

/-- Full event trace of a complete container lifetime: construction, the
operations, and finally the container destructor. -/
def runProg (f0 : Task T Ctx) (ops : List (Op T Ctx)) : List Event :=
  (runTrace f0 ops).2 ++ ReusableBoxFuture.drop (runTrace f0 ops).1.box

/-- Identities of the futures placed into the allocation, in trace
order. -/
def installIds (es : List Event) : List Nat :=
  es.filterMap fun e =>
    match e with
    | Event.install i => some i
    | _ => none

/-- Identities of the occupants whose destructor ran, in trace order. -/
def dropIds (es : List Event) : List Nat :=
  es.filterMap fun e =>
    match e with
    | Event.dropOccupant i => some i
    | _ => none

/-- Addresses of the blocks allocated in the trace. -/
def allocEvents (es : List Event) : List Nat :=
  es.filterMap fun e =>
    match e with
    | Event.alloc a => some a
    | _ => none

/-- Addresses of the blocks freed in the trace. -/
def freeEvents (es : List Event) : List Nat :=
  es.filterMap fun e =>
    match e with
    | Event.free a => some a
    | _ => none

/-- Effect of one event on the list of live allocation addresses. -/
def liveUpd (l : List Nat) : Event → List Nat
  | Event.alloc a => l ++ [a]
  | Event.free a => l.erase a
  | _ => l

/-- The allocations still live after a trace: allocated and not yet
freed. -/
def liveAddrs (es : List Event) : List Nat :=
  es.foldl liveUpd []

/-- The invariant tying the stored layout field to the occupant actually
present in the allocation. -/
def layoutInv (b : ReusableBoxFuture T Ctx) : Prop :=
  b.layout = b.occupant.layout

/-- A poll function that always reports pending, for concrete example
futures. -/
def pendingFn : Nat → Unit → Poll Unit :=
  fun _ _ => Poll.pending

/-- Example future A: layout 8/8, destructor unwinds with payload 7. -/
def exA : Task Unit Unit :=
  { id := 0, tyId := 10, send := true, layout := { size := 8, align := 8 },
    dropPanic := some 7, state := 0, pollFn := pendingFn }

/-- Example future B: layout 16/8, benign destructor. -/
def exB : Task Unit Unit :=
  { id := 1, tyId := 11, send := true, layout := { size := 16, align := 8 },
    dropPanic := none, state := 0, pollFn := pendingFn }

/-- Example future C: layout 8/8, benign destructor. -/
def exC : Task Unit Unit :=
  { id := 2, tyId := 12, send := true, layout := { size := 8, align := 8 },
    dropPanic := none, state := 0, pollFn := pendingFn }

/-- Example future D: layout 8/8, benign destructor, distinct identity
and concrete type from C. -/
def exD : Task Unit Unit :=
  { id := 3, tyId := 13, send := true, layout := { size := 8, align := 8 },
    dropPanic := none, state := 0, pollFn := pendingFn }

/-- Example future that is not `Send` (for instance one holding an `Rc`),
layout 8/8, benign destructor. -/
def exNoSend : Task Unit Unit :=
  { id := 9, tyId := 19, send := false, layout := { size := 8, align := 8 },
    dropPanic := none, state := 0, pollFn := pendingFn }

/-- Container freshly constructed around A (address 0, panicking
destructor installed). -/
def exBoxA : ReusableBoxFuture Unit Unit :=
  (ReusableBoxFuture.new { next := 0 } exA).box

/-- Container freshly constructed around C (address 0, benign
destructor). -/
def exBoxC : ReusableBoxFuture Unit Unit :=
  (ReusableBoxFuture.new { next := 0 } exC).box

/-- Allocator state after the first construction: next fresh address is
1. -/
def exAlloc1 : AllocState :=
  { next := 1 }

/-- Branch lemma: `set` on a matching layout is `set_same_layout`, with
the allocator untouched. -/
theorem set_of_eq (a : AllocState) (b : ReusableBoxFuture T Ctx) (f : Task T Ctx)
    (h : f.layout = b.layout) :
    ReusableBoxFuture.set a b f =
      { box := (ReusableBoxFuture.set_same_layout b f).box,
        alloc := a,
        panicked := (ReusableBoxFuture.set_same_layout b f).panicked,
        events := (ReusableBoxFuture.set_same_layout b f).events } := by
  unfold ReusableBoxFuture.set
  rw [if_pos h]

/-- Branch lemma: `set` on a layout mismatch with a benign old destructor
is a full reconstruction via `new`. -/
theorem set_of_ne_none (a : AllocState) (b : ReusableBoxFuture T Ctx) (f : Task T Ctx)
    (h : ¬ f.layout = b.layout) (hd : b.occupant.dropPanic = none) :
    ReusableBoxFuture.set a b f =
      { box := (ReusableBoxFuture.new a f).box,
        alloc := (ReusableBoxFuture.new a f).alloc,
        panicked := none,
        events := (ReusableBoxFuture.new a f).events ++
          [Event.dropOccupant b.occupant.id, Event.free b.addr] } := by
  unfold ReusableBoxFuture.set
  rw [if_neg h, hd]

/-- Branch lemma: `set` on a layout mismatch whose old destructor unwinds
leaves the container fields unchanged and propagates the unwind; the
temporary new box is created and destroyed during the unwind. -/
theorem set_of_ne_some (a : AllocState) (b : ReusableBoxFuture T Ctx) (f : Task T Ctx)
    (p : Nat) (h : ¬ f.layout = b.layout) (hd : b.occupant.dropPanic = some p) :
    ReusableBoxFuture.set a b f =
      { box := b,
        alloc := (ReusableBoxFuture.new a f).alloc,
        panicked := some p,
        events := (ReusableBoxFuture.new a f).events ++
          [Event.dropOccupant b.occupant.id, Event.free b.addr,
           Event.dropOccupant f.id, Event.free (ReusableBoxFuture.new a f).box.addr] } := by
  unfold ReusableBoxFuture.set
  rw [if_neg h, hd]

/-- Branch lemma: `try_set` on a matching layout is `set_same_layout` and
accepts. -/
theorem try_set_of_eq (b : ReusableBoxFuture T Ctx) (f : Task T Ctx)
    (h : f.layout = b.layout) :
    ReusableBoxFuture.try_set b f =
      { box := (ReusableBoxFuture.set_same_layout b f).box,
        panicked := (ReusableBoxFuture.set_same_layout b f).panicked,
        rejected := none,
        events := (ReusableBoxFuture.set_same_layout b f).events } := by
  unfold ReusableBoxFuture.try_set
  rw [if_pos h]

/-- Branch lemma: `try_set` on a layout mismatch mutates nothing and
hands the future back. -/
theorem try_set_of_ne (b : ReusableBoxFuture T Ctx) (f : Task T Ctx)
    (h : ¬ f.layout = b.layout) :
    ReusableBoxFuture.try_set b f =
      { box := b, panicked := none, rejected := some f, events := [] } := by
  unfold ReusableBoxFuture.try_set
  rw [if_neg h]

/-- Claim C1: for every container and every new task whose layout equals
the stored layout descriptor, after the in-place replacement step
(set_same_layout) the slot holds the new task, the dispatch metadata
describes the concrete type of the new task, and the address is
unchanged, regardless of whether the old occupant destructor unwound;
any such unwind is handed to the caller of set and try_set while the
container already holds the new task, so a subsequent poll drives the
new task. -/
theorem c1_set_same_layout_installs_before_reraise
    (a : AllocState) (b : ReusableBoxFuture T Ctx) (f : Task T Ctx) (cx : Ctx)
    (h : f.layout = b.layout) :
    (ReusableBoxFuture.set_same_layout b f).box.occupant = f ∧
    (ReusableBoxFuture.set_same_layout b f).box.meta = f.tyId ∧
    (ReusableBoxFuture.set_same_layout b f).box.addr = b.addr ∧
    (ReusableBoxFuture.set_same_layout b f).panicked = b.occupant.dropPanic ∧
    (ReusableBoxFuture.set a b f).box = (ReusableBoxFuture.set_same_layout b f).box ∧
    (ReusableBoxFuture.set a b f).panicked = b.occupant.dropPanic ∧
    (ReusableBoxFuture.try_set b f).box = (ReusableBoxFuture.set_same_layout b f).box ∧
    (ReusableBoxFuture.try_set b f).panicked = b.occupant.dropPanic ∧
    (ReusableBoxFuture.poll (ReusableBoxFuture.set_same_layout b f).box cx).1 =
      (Task.poll f cx).1 := by
  refine ⟨rfl, rfl, rfl, rfl, ?_, ?_, ?_, ?_, rfl⟩
  · rw [set_of_eq a b f h]
  · rw [set_of_eq a b f h]
    rfl
  · rw [try_set_of_eq b f h]
  · rw [try_set_of_eq b f h]
    rfl

/-- Witness for C1 at a concrete matching-layout replacement over a
container whose occupant destructor unwinds with payload 7. -/
theorem c1_witness :
    (ReusableBoxFuture.set_same_layout exBoxA exD).box.occupant = exD ∧
    (ReusableBoxFuture.set_same_layout exBoxA exD).box.meta = exD.tyId ∧
    (ReusableBoxFuture.set_same_layout exBoxA exD).box.addr = exBoxA.addr ∧
    (ReusableBoxFuture.set_same_layout exBoxA exD).panicked = exBoxA.occupant.dropPanic ∧
    (ReusableBoxFuture.set exAlloc1 exBoxA exD).box =
      (ReusableBoxFuture.set_same_layout exBoxA exD).box ∧
    (ReusableBoxFuture.set exAlloc1 exBoxA exD).panicked = exBoxA.occupant.dropPanic ∧
    (ReusableBoxFuture.try_set exBoxA exD).box =
      (ReusableBoxFuture.set_same_layout exBoxA exD).box ∧
    (ReusableBoxFuture.try_set exBoxA exD).panicked = exBoxA.occupant.dropPanic ∧
    (ReusableBoxFuture.poll (ReusableBoxFuture.set_same_layout exBoxA exD).box ()).1 =
      (Task.poll exD ()).1 :=
  c1_set_same_layout_installs_before_reraise exAlloc1 exBoxA exD () (by decide)

/-- Claim C2: try_set accepts exactly when the layout of the new task
equals the stored layout descriptor; on acceptance it performs the
in-place replacement without allocating, and on rejection it performs no
mutation at all and returns the rejected task unchanged. -/
theorem c2_try_set_success_iff_layout_eq (b : ReusableBoxFuture T Ctx) (f : Task T Ctx) :
    ((ReusableBoxFuture.try_set b f).rejected = none ↔ f.layout = b.layout) ∧
    (¬ f.layout = b.layout →
      (ReusableBoxFuture.try_set b f).box = b ∧
      (ReusableBoxFuture.try_set b f).rejected = some f ∧
      (ReusableBoxFuture.try_set b f).panicked = none ∧
      (ReusableBoxFuture.try_set b f).events = []) ∧
    (f.layout = b.layout →
      (ReusableBoxFuture.try_set b f).box =
        (ReusableBoxFuture.set_same_layout b f).box ∧
      (ReusableBoxFuture.try_set b f).box.addr = b.addr ∧
      allocEvents (ReusableBoxFuture.try_set b f).events = [] ∧
      freeEvents (ReusableBoxFuture.try_set b f).events = []) := by
  by_cases h : f.layout = b.layout
  · rw [try_set_of_eq b f h]
    exact ⟨⟨fun _ => h, fun _ => rfl⟩, fun hn => absurd h hn,
      fun _ => ⟨rfl, rfl, rfl, rfl⟩⟩
  · rw [try_set_of_ne b f h]
    exact ⟨⟨fun hs => absurd hs (by simp), fun he => absurd he h⟩,
      fun _ => ⟨rfl, rfl, rfl, rfl⟩, fun he => absurd he h⟩

/-- Witness for C2 at a concrete rejected replacement: the 16/8 task is
handed back and the 8/8 container is untouched. -/
theorem c2_witness :
    ((ReusableBoxFuture.try_set exBoxC exB).rejected = none ↔
      exB.layout = exBoxC.layout) ∧
    (¬ exB.layout = exBoxC.layout →
      (ReusableBoxFuture.try_set exBoxC exB).box = exBoxC ∧
      (ReusableBoxFuture.try_set exBoxC exB).rejected = some exB ∧
      (ReusableBoxFuture.try_set exBoxC exB).panicked = none ∧
      (ReusableBoxFuture.try_set exBoxC exB).events = []) ∧
    (exB.layout = exBoxC.layout →
      (ReusableBoxFuture.try_set exBoxC exB).box =
        (ReusableBoxFuture.set_same_layout exBoxC exB).box ∧
      (ReusableBoxFuture.try_set exBoxC exB).box.addr = exBoxC.addr ∧
      allocEvents (ReusableBoxFuture.try_set exBoxC exB).events = [] ∧
      freeEvents (ReusableBoxFuture.try_set exBoxC exB).events = []) :=
  c2_try_set_success_iff_layout_eq exBoxC exB

/-- Counterexample to C3 as stated: with a mismatched layout and an old
occupant whose destructor unwinds, the assignment in set never writes, so
the address and the stored layout are unchanged even though the layouts
differ. -/
theorem c3_counterexample_panicking_reconstruction_keeps_addr :
    ¬ exB.layout = exBoxA.layout ∧
    (ReusableBoxFuture.set exAlloc1 exBoxA exB).box.addr = exBoxA.addr ∧
    ¬ (ReusableBoxFuture.set exAlloc1 exBoxA exB).box.layout = exB.layout := by
  decide

/-- Claim C3 (amended): set reuses the allocation, leaves the allocator
untouched and emits no allocation traffic exactly on the matching-layout
path; on a mismatch, provided the old occupant destructor does not
unwind, set completes the reconstruction: the new address is distinct
from the old one and the stored layout becomes the layout of the new
task. -/
theorem c3_alloc_reuse_iff_layout_eq
    (a : AllocState) (b : ReusableBoxFuture T Ctx) (f : Task T Ctx)
    (hwf : b.addr < a.next) :
    (f.layout = b.layout →
      (ReusableBoxFuture.set a b f).box.addr = b.addr ∧
      (ReusableBoxFuture.set a b f).alloc = a ∧
      allocEvents (ReusableBoxFuture.set a b f).events = [] ∧
      freeEvents (ReusableBoxFuture.set a b f).events = []) ∧
    (¬ f.layout = b.layout → b.occupant.dropPanic = none →
      ¬ (ReusableBoxFuture.set a b f).box.addr = b.addr ∧
      (ReusableBoxFuture.set a b f).box.layout = f.layout ∧
      (ReusableBoxFuture.set a b f).box = (ReusableBoxFuture.new a f).box ∧
      (ReusableBoxFuture.set a b f).alloc = (ReusableBoxFuture.new a f).alloc) := by
  constructor
  · intro h
    rw [set_of_eq a b f h]
    exact ⟨rfl, rfl, rfl, rfl⟩
  · intro h hd
    rw [set_of_ne_none a b f h hd]
    exact ⟨fun hc => absurd hc.symm (Nat.ne_of_lt hwf), rfl, rfl, rfl⟩

/-- Witness for C3 at a concrete same-layout replacement and allocator
state. -/
theorem c3_witness :
    (exD.layout = exBoxC.layout →
      (ReusableBoxFuture.set exAlloc1 exBoxC exD).box.addr = exBoxC.addr ∧
      (ReusableBoxFuture.set exAlloc1 exBoxC exD).alloc = exAlloc1 ∧
      allocEvents (ReusableBoxFuture.set exAlloc1 exBoxC exD).events = [] ∧
      freeEvents (ReusableBoxFuture.set exAlloc1 exBoxC exD).events = []) ∧
    (¬ exD.layout = exBoxC.layout → exBoxC.occupant.dropPanic = none →
      ¬ (ReusableBoxFuture.set exAlloc1 exBoxC exD).box.addr = exBoxC.addr ∧
      (ReusableBoxFuture.set exAlloc1 exBoxC exD).box.layout = exD.layout ∧
      (ReusableBoxFuture.set exAlloc1 exBoxC exD).box =
        (ReusableBoxFuture.new exAlloc1 exD).box ∧
      (ReusableBoxFuture.set exAlloc1 exBoxC exD).alloc =
        (ReusableBoxFuture.new exAlloc1 exD).alloc) :=
  c3_alloc_reuse_iff_layout_eq exAlloc1 exBoxC exD (by decide)

/-- Counterexample to C4 as stated: on the mismatched-layout path of set,
an unwind of the old occupant destructor is surfaced while the container
still carries the metadata and occupant of the old task, not the new
one. -/
theorem c4_counterexample_mismatch_panic_leaves_stale :
    (ReusableBoxFuture.set exAlloc1 exBoxA exB).panicked = some 7 ∧
    ¬ (ReusableBoxFuture.set exAlloc1 exBoxA exB).box.meta = exB.tyId ∧
    ¬ (ReusableBoxFuture.set exAlloc1 exBoxA exB).box.occupant.id = exB.id := by
  decide

/-- Claim C4 (amended): on the matching-layout path of both set and
try_set, a destructor unwind is surfaced only after the container
describes the newly installed task, and try_set never surfaces a
destructor unwind on rejection; on the mismatched-layout path of set, a
benign destructor yields a normal completion describing the new task,
while an unwinding destructor propagates before the new task is
installed, leaving the container fields unchanged. -/
theorem c4_panic_surfaced_after_valid_state
    (a : AllocState) (b : ReusableBoxFuture T Ctx) (f : Task T Ctx) :
    (f.layout = b.layout →
      (ReusableBoxFuture.set a b f).panicked = b.occupant.dropPanic ∧
      (ReusableBoxFuture.set a b f).box.occupant = f ∧
      (ReusableBoxFuture.set a b f).box.meta = f.tyId ∧
      (ReusableBoxFuture.try_set b f).panicked = b.occupant.dropPanic ∧
      (ReusableBoxFuture.try_set b f).box.occupant = f ∧
      (ReusableBoxFuture.try_set b f).box.meta = f.tyId) ∧
    (¬ f.layout = b.layout →
      (ReusableBoxFuture.try_set b f).panicked = none ∧
      (b.occupant.dropPanic = none →
        (ReusableBoxFuture.set a b f).panicked = none ∧
        (ReusableBoxFuture.set a b f).box.occupant = f ∧
        (ReusableBoxFuture.set a b f).box.meta = f.tyId) ∧
      (∀ p, b.occupant.dropPanic = some p →
        (ReusableBoxFuture.set a b f).panicked = some p ∧
        (ReusableBoxFuture.set a b f).box = b)) := by
  constructor
  · intro h
    rw [set_of_eq a b f h, try_set_of_eq b f h]
    exact ⟨rfl, rfl, rfl, rfl, rfl, rfl⟩
  · intro h
    rw [try_set_of_ne b f h]
    refine ⟨rfl, ?_, ?_⟩
    · intro hd
      rw [set_of_ne_none a b f h hd]
      exact ⟨rfl, rfl, rfl⟩
    · intro p hd
      rw [set_of_ne_some a b f p h hd]
      exact ⟨rfl, rfl⟩

/-- Witness for C4 over a concrete container with an unwinding occupant
destructor. -/
theorem c4_witness :
    (exB.layout = exBoxA.layout →
      (ReusableBoxFuture.set exAlloc1 exBoxA exB).panicked =
        exBoxA.occupant.dropPanic ∧
      (ReusableBoxFuture.set exAlloc1 exBoxA exB).box.occupant = exB ∧
      (ReusableBoxFuture.set exAlloc1 exBoxA exB).box.meta = exB.tyId ∧
      (ReusableBoxFuture.try_set exBoxA exB).panicked = exBoxA.occupant.dropPanic ∧
      (ReusableBoxFuture.try_set exBoxA exB).box.occupant = exB ∧
      (ReusableBoxFuture.try_set exBoxA exB).box.meta = exB.tyId) ∧
    (¬ exB.layout = exBoxA.layout →
      (ReusableBoxFuture.try_set exBoxA exB).panicked = none ∧
      (exBoxA.occupant.dropPanic = none →
        (ReusableBoxFuture.set exAlloc1 exBoxA exB).panicked = none ∧
        (ReusableBoxFuture.set exAlloc1 exBoxA exB).box.occupant = exB ∧
        (ReusableBoxFuture.set exAlloc1 exBoxA exB).box.meta = exB.tyId) ∧
      (∀ p, exBoxA.occupant.dropPanic = some p →
        (ReusableBoxFuture.set exAlloc1 exBoxA exB).panicked = some p ∧
        (ReusableBoxFuture.set exAlloc1 exBoxA exB).box = exBoxA)) :=
  c4_panic_surfaced_after_valid_state exAlloc1 exBoxA exB

/-- Claim C6: the source declares the container transferable across
threads unconditionally, yet new, set and try_set accept a task that is
not itself transferable, so a container holding a non-Send occupant is
still marked Send — contradicting the stated requirement (and the source
comments at lines 5 and 127 of reusable_future_box.rs). -/
theorem c6_send_bound_missing :
    (ReusableBoxFuture.new { next := 0 } exNoSend).box.occupant.send = false ∧
    ReusableBoxFuture.isSend (ReusableBoxFuture.new { next := 0 } exNoSend).box = true ∧
    (ReusableBoxFuture.try_set exBoxC exNoSend).rejected.isNone = true ∧
    (ReusableBoxFuture.try_set exBoxC exNoSend).box.occupant.send = false ∧
    (ReusableBoxFuture.set exAlloc1 exBoxC exNoSend).box.occupant.send = false := by
  decide

/-- Claim C7: the stored layout descriptor equals the layout of the
occupant physically present after construction, and this invariant is
preserved by set_same_layout (under its layout precondition), by set and
by try_set. -/
theorem c7_layout_descriptor_invariant
    (a : AllocState) (b : ReusableBoxFuture T Ctx) (f : Task T Ctx)
    (hb : layoutInv b) :
    layoutInv (ReusableBoxFuture.new a f).box ∧
    (f.layout = b.layout → layoutInv (ReusableBoxFuture.set_same_layout b f).box) ∧
    layoutInv (ReusableBoxFuture.set a b f).box ∧
    layoutInv (ReusableBoxFuture.try_set b f).box := by
  refine ⟨rfl, ?_, ?_, ?_⟩
  · intro h
    exact h.symm
  · by_cases h : f.layout = b.layout
    · rw [set_of_eq a b f h]
      exact h.symm
    · cases hd : b.occupant.dropPanic with
      | none =>
          rw [set_of_ne_none a b f h hd]
          exact rfl
      | some p =>
          rw [set_of_ne_some a b f p h hd]
          exact hb
  · by_cases h : f.layout = b.layout
    · rw [try_set_of_eq b f h]
      exact h.symm
    · rw [try_set_of_ne b f h]
      exact hb

/-- Witness for C7 at a freshly constructed container and a matching
replacement. -/
theorem c7_witness :
    layoutInv (ReusableBoxFuture.new exAlloc1 exD).box ∧
    (exD.layout = exBoxC.layout →
      layoutInv (ReusableBoxFuture.set_same_layout exBoxC exD).box) ∧
    layoutInv (ReusableBoxFuture.set exAlloc1 exBoxC exD).box ∧
    layoutInv (ReusableBoxFuture.try_set exBoxC exD).box :=
  c7_layout_descriptor_invariant exAlloc1 exBoxC exD rfl

/-- Claim C9: polling the container forwards the context to the occupant
and returns exactly what the occupant returns, the Future implementation
of the container coincides with its poll method, and a sequence of polls
through the container yields the same outcomes as polling the occupant
unwrapped. -/
theorem c9_poll_transparency (b : ReusableBoxFuture T Ctx) (cx : Ctx) (cxs : List Ctx) :
    (ReusableBoxFuture.poll b cx).1 = (Task.poll b.occupant cx).1 ∧
    (ReusableBoxFuture.poll b cx).2.occupant = (Task.poll b.occupant cx).2 ∧
    ReusableBoxFuture.futurePoll b cx = ReusableBoxFuture.poll b cx ∧
    ReusableBoxFuture.pollSeq b cxs = Task.pollSeq b.occupant cxs := by
  refine ⟨rfl, rfl, rfl, ?_⟩
  induction cxs generalizing b with
  | nil => rfl
  | cons cx0 rest ih =>
      show (ReusableBoxFuture.poll b cx0).1 ::
          ReusableBoxFuture.pollSeq (ReusableBoxFuture.poll b cx0).2 rest =
        (Task.poll b.occupant cx0).1 ::
          Task.pollSeq (Task.poll b.occupant cx0).2 rest
      rw [ih (ReusableBoxFuture.poll b cx0).2]
      rfl

/-- Claim C10: whenever the layouts match, try_set accepts and leaves the
container in exactly the state set would produce, with the same surfaced
unwind and the allocator untouched. -/
theorem c10_try_set_equiv_set_on_match
    (a : AllocState) (b : ReusableBoxFuture T Ctx) (f : Task T Ctx)
    (h : f.layout = b.layout) :
    (ReusableBoxFuture.try_set b f).box = (ReusableBoxFuture.set a b f).box ∧
    (ReusableBoxFuture.try_set b f).panicked = (ReusableBoxFuture.set a b f).panicked ∧
    (ReusableBoxFuture.try_set b f).events = (ReusableBoxFuture.set a b f).events ∧
    (ReusableBoxFuture.try_set b f).rejected = none ∧
    (ReusableBoxFuture.set a b f).alloc = a := by
  rw [try_set_of_eq b f h, set_of_eq a b f h]
  exact ⟨rfl, rfl, rfl, rfl, rfl⟩

/-- The install extractor distributes over trace concatenation. -/
theorem installIds_append (xs ys : List Event) :
    installIds (xs ++ ys) = installIds xs ++ installIds ys :=
  List.filterMap_append xs ys _

/-- The destructor-run extractor distributes over trace concatenation. -/
theorem dropIds_append (xs ys : List Event) :
    dropIds (xs ++ ys) = dropIds xs ++ dropIds ys :=
  List.filterMap_append xs ys _

/-- One benign step keeps the bookkeeping aligned: the destructor runs it
emits, followed by the identity of the occupant it leaves installed, are
the previously installed occupant followed by the installs it emits. -/
theorem step_ids (s : RunState T Ctx) (op : Op T Ctx) (hg : goodStep s op = true) :
    dropIds (step s op).2 ++ [(step s op).1.box.occupant.id] =
      s.box.occupant.id :: installIds (step s op).2 := by
  cases op with
  | setOp f =>
      by_cases h : f.layout = s.box.layout
      · simp only [step]
        rw [set_of_eq s.alloc s.box f h]
        rfl
      · have hd : s.box.occupant.dropPanic = none := by
          simp only [goodStep] at hg
          rw [Bool.or_eq_true] at hg
          rcases hg with h1 | h2
          · exact absurd (of_decide_eq_true h1) h
          · exact Option.isNone_iff_eq_none.mp h2
        simp only [step]
        rw [set_of_ne_none s.alloc s.box f h hd]
        rfl
  | trySetOp f =>
      by_cases h : f.layout = s.box.layout
      · simp only [step]
        rw [try_set_of_eq s.box f h]
        rfl
      · simp only [step]
        rw [try_set_of_ne s.box f h]
        rfl
  | pollOp cx => rfl

/-- One benign step maps the singleton live-allocation list for the old
container address to the singleton for the new one. -/
theorem step_live (s : RunState T Ctx) (op : Op T Ctx) (hg : goodStep s op = true) :
    List.foldl liveUpd [s.box.addr] (step s op).2 = [(step s op).1.box.addr] := by
  cases op with
  | setOp f =>
      by_cases h : f.layout = s.box.layout
      · simp only [step]
        rw [set_of_eq s.alloc s.box f h]
        rfl
      · have hd : s.box.occupant.dropPanic = none := by
          simp only [goodStep] at hg
          rw [Bool.or_eq_true] at hg
          rcases hg with h1 | h2
          · exact absurd (of_decide_eq_true h1) h
          · exact Option.isNone_iff_eq_none.mp h2
        simp only [step]
        rw [set_of_ne_none s.alloc s.box f h hd]
        show ((([s.box.addr] ++ [s.alloc.next]).erase s.box.addr) : List Nat) =
          [s.alloc.next]
        rw [List.singleton_append, List.erase_cons_head]
  | trySetOp f =>
      by_cases h : f.layout = s.box.layout
      · simp only [step]
        rw [try_set_of_eq s.box f h]
        rfl
      · simp only [step]
        rw [try_set_of_ne s.box f h]
        rfl
  | pollOp cx => rfl

/-- Along any benign run, the destructor runs emitted so far, followed by
the identity of the occupant still installed, are exactly the initial
occupant followed by the installs emitted so far. -/
theorem runOps_ids (ops : List (Op T Ctx)) :
    ∀ s : RunState T Ctx, goodOps s ops = true →
      dropIds (runOps s ops).2 ++ [(runOps s ops).1.box.occupant.id] =
        s.box.occupant.id :: installIds (runOps s ops).2 := by
  induction ops with
  | nil => intro s _; rfl
  | cons op rest ih =>
      intro s hg
      simp only [goodOps] at hg
      rw [Bool.and_eq_true] at hg
      have h1 := step_ids s op hg.1
      have h2 := ih (step s op).1 hg.2
      simp only [runOps, dropIds_append, installIds_append]
      rw [List.append_assoc, h2, List.append_cons, h1, List.cons_append]

/-- Along any benign run, exactly the container allocation is live. -/
theorem runOps_live (ops : List (Op T Ctx)) :
    ∀ s : RunState T Ctx, goodOps s ops = true →
      List.foldl liveUpd [s.box.addr] (runOps s ops).2 =
        [(runOps s ops).1.box.addr] := by
  induction ops with
  | nil => intro s _; rfl
  | cons op rest ih =>
      intro s hg
      simp only [goodOps] at hg
      rw [Bool.and_eq_true] at hg
      simp only [runOps]
      rw [List.foldl_append, step_live s op hg.1, ih (step s op).1 hg.2]

/-- The live-allocation computation distributes over trace
concatenation. -/
theorem liveAddrs_append (xs ys : List Event) :
    liveAddrs (xs ++ ys) = List.foldl liveUpd (liveAddrs xs) ys :=
  List.foldl_append liveUpd [] xs ys

/-- Counterexample to C5 as stated: in a mismatched-layout set, the trace
of `*self = Self::new(future)` allocates the new block before the old
occupant is destroyed and its block freed, not after, so the old
allocation is not torn down before the new one is created. -/
theorem c5_counterexample_new_alloc_before_old_free :
    (ReusableBoxFuture.set exAlloc1 exBoxC exB).events =
      [Event.alloc 1, Event.install 1, Event.dropOccupant 2, Event.free 0] ∧
    ¬ ((ReusableBoxFuture.set exAlloc1 exBoxC exB).events.findIdx
          (fun e => e == Event.free 0) <
        (ReusableBoxFuture.set exAlloc1 exBoxC exB).events.findIdx
          (fun e => e == Event.alloc 1)) := by
  decide

/-- Claim C5 (amended): over any benign run — one in which no occupant
whose destructor unwinds is replaced by a mismatched-layout set — the
live allocations at every operation boundary are exactly the single
block owned by the container, and after the container is destroyed no
allocation is live; within a mismatched-layout set the new block is
created before the old one is freed, so two blocks transiently exist,
the new one owned by the temporary of the reconstruction rather than by
the container. On the excluded runs the conclusion fails: the aborted
assignment frees the old block and the unwind frees the temporary, so no
allocation is live while the container still carries the freed
address. -/
theorem c5_single_live_allocation (f0 : Task T Ctx) (ops : List (Op T Ctx))
    (hg : goodOps (initState f0) ops = true) :
    liveAddrs (runTrace f0 ops).2 = [(runTrace f0 ops).1.box.addr] ∧
    liveAddrs (runProg f0 ops) = [] := by
  have key := runOps_live ops (initState f0) hg
  have h1 : liveAddrs (runTrace f0 ops).2 = [(runTrace f0 ops).1.box.addr] := by
    show liveAddrs ((ReusableBoxFuture.new { next := 0 } f0).events ++
      (runOps (initState f0) ops).2) = _
    rw [liveAddrs_append]
    exact key
  refine ⟨h1, ?_⟩
  show liveAddrs ((runTrace f0 ops).2 ++
    ReusableBoxFuture.drop (runTrace f0 ops).1.box) = []
  rw [liveAddrs_append, h1]
  show (([(runTrace f0 ops).1.box.addr].erase (runTrace f0 ops).1.box.addr) :
    List Nat) = []
  rw [List.erase_cons_head]

/-- Witness for C5 on a concrete benign run: an accepted try_set followed
by a reallocating set. -/
theorem c5_witness :
    liveAddrs (runTrace exC [Op.trySetOp exD, Op.setOp exB]).2 =
      [(runTrace exC [Op.trySetOp exD, Op.setOp exB]).1.box.addr] ∧
    liveAddrs (runProg exC [Op.trySetOp exD, Op.setOp exB]) = [] :=
  c5_single_live_allocation exC [Op.trySetOp exD, Op.setOp exB] (by decide)

/-- Counterexample to C8 as stated: when the occupant destructor unwinds
during a mismatched-layout set, the assignment never overwrites the
container, so destruction of the container runs the destructor of the
already-destroyed occupant a second time: occupant 0 is installed once
but its destructor runs twice. -/
theorem c8_counterexample_double_drop :
    (dropIds (runProg exA [Op.setOp exB])).count 0 = 2 ∧
    (installIds (runProg exA [Op.setOp exB])).count 0 = 1 := by
  decide

/-- Claim C8 (amended): over any benign run (no occupant whose destructor
unwinds is replaced by a mismatched-layout set), the destructor runs are
exactly the installed occupants — each occupant constructed at
construction time or by an accepted replacement is destroyed exactly
once, by the replacement that removes it or by the container destructor,
and the container destructor only ever destroys the occupant still
installed. -/
theorem c8_each_occupant_dropped_once (f0 : Task T Ctx) (ops : List (Op T Ctx))
    (hg : goodOps (initState f0) ops = true) :
    dropIds (runProg f0 ops) = installIds (runProg f0 ops) ∧
    ((installIds (runProg f0 ops)).Nodup →
      ∀ i ∈ installIds (runProg f0 ops),
        (dropIds (runProg f0 ops)).count i = 1) := by
  have key := runOps_ids ops (initState f0) hg
  have e1 : dropIds (runProg f0 ops) =
      dropIds (runOps (initState f0) ops).2 ++
        [(runOps (initState f0) ops).1.box.occupant.id] := by
    show dropIds ((runOps (initState f0) ops).2 ++
      ReusableBoxFuture.drop (runOps (initState f0) ops).1.box) = _
    rw [dropIds_append]
    rfl
  have e2 : installIds (runProg f0 ops) =
      f0.id :: installIds (runOps (initState f0) ops).2 := by
    show f0.id :: installIds ((runOps (initState f0) ops).2 ++
      ReusableBoxFuture.drop (runOps (initState f0) ops).1.box) = _
    rw [installIds_append]
    show f0.id :: (installIds (runOps (initState f0) ops).2 ++ ([] : List Nat)) = _
    rw [List.append_nil]
  have h1 : dropIds (runProg f0 ops) = installIds (runProg f0 ops) := by
    rw [e1, e2]
    exact key
  refine ⟨h1, ?_⟩
  intro hnd i hi
  rw [h1]
  exact List.count_eq_one_of_mem hnd hi

/-- Witness for C8 on a concrete benign run: an accepted try_set followed
by a reallocating set, with pairwise distinct occupant identities. -/
theorem c8_witness :
    dropIds (runProg exC [Op.trySetOp exD, Op.setOp exB]) =
      installIds (runProg exC [Op.trySetOp exD, Op.setOp exB]) ∧
    ((installIds (runProg exC [Op.trySetOp exD, Op.setOp exB])).Nodup →
      ∀ i ∈ installIds (runProg exC [Op.trySetOp exD, Op.setOp exB]),
        (dropIds (runProg exC [Op.trySetOp exD, Op.setOp exB])).count i = 1) :=
  c8_each_occupant_dropped_once exC [Op.trySetOp exD, Op.setOp exB] (by decide)

/-- Witness for C10 at a concrete matching-layout replacement. -/
theorem c10_witness :
    (ReusableBoxFuture.try_set exBoxC exD).box =
      (ReusableBoxFuture.set exAlloc1 exBoxC exD).box ∧
    (ReusableBoxFuture.try_set exBoxC exD).panicked =
      (ReusableBoxFuture.set exAlloc1 exBoxC exD).panicked ∧
    (ReusableBoxFuture.try_set exBoxC exD).events =
      (ReusableBoxFuture.set exAlloc1 exBoxC exD).events ∧
    (ReusableBoxFuture.try_set exBoxC exD).rejected = none ∧
    (ReusableBoxFuture.set exAlloc1 exBoxC exD).alloc = exAlloc1 :=
  c10_try_set_equiv_set_on_match exAlloc1 exBoxC exD (by decide)

end ReusableFutureBox
